import Mathlib

/-!
A verification development for the `machineInfo` command-line utility
(`machineInfo.go`).  The program is glue code between operating-system
introspection queries and formatted text output, so the embedding makes
every OS query an explicit input (`Except OSError α`), models a Go
`panic` as `Option.none`, and models each `fmt.Printf`/`fmt.Println`
call as an emitted `Line` value carrying the format string and the
argument values actually passed (Go `float64` values are embedded as
`ℚ`, Go unsigned integers as `Nat`, Go signed integers as `Int`).
-/

namespace MachineInfo

/-- An error value produced by a failing OS query (Go `error`). -/
structure OSError where
  msg : String
deriving DecidableEq, Repr

/-- `SYSINFO_LOADS_SCALE = 1<<16` from the source constants block. -/
def SYSINFO_LOADS_SCALE : Nat := 1 <<< 16

/-- `SYSINFO_MEM_UNIT = 1024 * 1024` from the source constants block. -/
def SYSINFO_MEM_UNIT : Nat := 1024 * 1024

/-- The raw kernel record `syscall.Sysinfo_t` (Linux `sysinfo(2)`):
`Uptime int64`, `Loads [3]uint64`, the memory fields `uint64`,
`Procs uint16`.  Unsigned fields are embedded as `Nat`. -/
structure Sysinfo_t where
  Uptime : Int
  Loads : Fin 3 → Nat
  Totalram : Nat
  Freeram : Nat
  Sharedram : Nat
  Bufferram : Nat
  Totalswap : Nat
  Freeswap : Nat
  Procs : Nat
  Totalhigh : Nat
  Freehigh : Nat
deriving DecidableEq

/-- The converted record `sys_t` from the source: `UpTime int64`,
`Loads [3]float64` (embedded as `ℚ`), unsigned megabyte fields,
`Procs uint16`. -/
structure sys_t where
  UpTime : Int
  Loads : Fin 3 → ℚ
  TotalRam : Nat
  FreeRam : Nat
  SharedRam : Nat
  BufferRam : Nat
  TotalSwap : Nat
  FreeSwap : Nat
  Procs : Nat
  TotalHigh : Nat
  FreeHigh : Nat
deriving DecidableEq

/-- `GetHostName`: panics (`none`) when `os.Hostname()` errors,
otherwise returns the hostname unchanged. -/
def GetHostName (q : Except OSError String) : Option String :=
  match q with
  | .error _ => none
  | .ok hostN => some hostN

/-- The field-by-field conversion body of `GetSysInfo`: uptime copied,
each of `Loads[0..2]` divided by `SYSINFO_LOADS_SCALE` after conversion
to floating point, each byte-denominated memory field divided (integer
division) by `SYSINFO_MEM_UNIT`, `Procs` copied. -/
def sys_of_sysinfo (sys_ref : Sysinfo_t) : sys_t where
  UpTime := sys_ref.Uptime
  Loads := fun i => (sys_ref.Loads i : ℚ) / (SYSINFO_LOADS_SCALE : ℚ)
  TotalRam := sys_ref.Totalram / SYSINFO_MEM_UNIT
  FreeRam := sys_ref.Freeram / SYSINFO_MEM_UNIT
  SharedRam := sys_ref.Sharedram / SYSINFO_MEM_UNIT
  BufferRam := sys_ref.Bufferram / SYSINFO_MEM_UNIT
  TotalSwap := sys_ref.Totalswap / SYSINFO_MEM_UNIT
  FreeSwap := sys_ref.Freeswap / SYSINFO_MEM_UNIT
  Procs := sys_ref.Procs
  TotalHigh := sys_ref.Totalhigh / SYSINFO_MEM_UNIT
  FreeHigh := sys_ref.Freehigh / SYSINFO_MEM_UNIT

/-- `GetSysInfo`: panics (`none`) when `syscall.Sysinfo` errors,
otherwise returns the converted `sys_t` record. -/
def GetSysInfo (q : Except OSError Sysinfo_t) : Option sys_t :=
  match q with
  | .error _ => none
  | .ok sys_ref => some (sys_of_sysinfo sys_ref)

/-- One record of gopsutil `cpu.InfoStat`: `CPU int32`,
string descriptor fields, `Mhz float64` (embedded as `ℚ`),
`Flags []string`. -/
structure InfoStat where
  CPU : Int
  VendorID : String
  Family : String
  Model : String
  Stepping : Int
  PhysicalID : String
  CoreID : String
  Cores : Int
  ModelName : String
  Mhz : ℚ
  CacheSize : Int
  Flags : List String
  Microcode : String
deriving DecidableEq

/-- `GetCPUInfo`: panics (`none`) when `cpu.Info()` errors, otherwise
returns the per-CPU descriptor slice unchanged. -/
def GetCPUInfo (q : Except OSError (List InfoStat)) : Option (List InfoStat) :=
  match q with
  | .error _ => none
  | .ok cpu_info => some cpu_info

/-- One record of Go `net.Interface`: `Index int`, `MTU int`, `Name`,
hardware address bytes, and the `Flags` bit set (embedded as `Nat`). -/
structure Interface where
  Index : Int
  MTU : Int
  Name : String
  HardwareAddr : List Nat
  Flags : Nat
deriving DecidableEq, Repr

/-- `GetNetworkInterface`: panics (`none`) when `net.Interfaces()`
errors, otherwise returns the interface slice unchanged. -/
def GetNetworkInterface (q : Except OSError (List Interface)) : Option (List Interface) :=
  match q with
  | .error _ => none
  | .ok ifaces => some ifaces

/-- An argument value passed to a formatting verb. -/
inductive Val where
  | vInt (n : Int)
  | vNat (n : Nat)
  | vRat (x : ℚ)
  | vStr (s : String)
  | vIface (x : Interface)
  | vStrs (l : List String)
deriving DecidableEq, Repr

/-- One emitted output event: a `fmt.Printf` call with its format
string and argument values, or a `fmt.Println` call with its value. -/
inductive Line where
  | printf (format : String) (args : List Val)
  | println (arg : Val)
deriving DecidableEq, Repr

/-- `PrintHostName`: one `hostname:` line; propagates the panic of
`GetHostName`. -/
def PrintHostName (q : Except OSError String) : Option (List Line) :=
  (GetHostName q).map fun h => [.printf "hostname:\t%v\n" [.vStr h]]

/-- `PrintOSName`: the `runtime.GOOS` and `runtime.GOARCH` lines; the
two platform constants are inputs of the model.  No failure mode. -/
def PrintOSName (goos goarch : String) : List Line :=
  [.printf "OS name:\t%v\n" [.vStr goos],
   .printf "OS arch:\t%v\n" [.vStr goarch]]

/-- `PrintSysInfo`: the eleven `sys ...` lines, in source order.  The
`sys freeRam` line passes `sys_obj.TotalRam` (exactly as the source
does), not `sys_obj.FreeRam`.  Propagates the panic of `GetSysInfo`. -/
def PrintSysInfo (q : Except OSError Sysinfo_t) : Option (List Line) :=
  (GetSysInfo q).map fun sys_obj =>
    [.printf "sys uptime:\t%d\n" [.vInt sys_obj.UpTime],
     .printf "sys load avg:\t%2.2f, %2.2f, %2.2f\n"
       [.vRat (sys_obj.Loads 0), .vRat (sys_obj.Loads 1), .vRat (sys_obj.Loads 2)],
     .printf "sys totalRam:\t%d MB\n" [.vNat sys_obj.TotalRam],
     .printf "sys freeRam:\t%d MB\n" [.vNat sys_obj.TotalRam],
     .printf "sys sharedRam:\t%d MB\n" [.vNat sys_obj.SharedRam],
     .printf "sys bufferRam:\t%d MB\n" [.vNat sys_obj.BufferRam],
     .printf "sys totalSwap:\t%d MB\n" [.vNat sys_obj.TotalSwap],
     .printf "sys freeSwap:\t%d MB\n" [.vNat sys_obj.FreeSwap],
     .printf "sys totalHigh:\t%d MB\n" [.vNat sys_obj.TotalHigh],
     .printf "sys freeHigh:\t%d MB\n" [.vNat sys_obj.FreeHigh],
     .printf "sys procs:\t%d\n" [.vNat sys_obj.Procs]]

/-- The thirteen lines the `PrintCPUInfo` loop body prints for one
record (label spellings, including `--facheSize`, as in the source). -/
def cpuLines (r : InfoStat) : List Line :=
  [.printf "cpuID:\t%d\n" [.vInt r.CPU],
   .printf "--vendorID:\t%s\n" [.vStr r.VendorID],
   .printf "--family:\t%s\n" [.vStr r.Family],
   .printf "--model:\t%s\n" [.vStr r.Model],
   .printf "--stepping:\t%d\n" [.vInt r.Stepping],
   .printf "--physicalID:\t%s\n" [.vStr r.PhysicalID],
   .printf "--coreID:\t%s\n" [.vStr r.CoreID],
   .printf "--cores:\t%d\n" [.vInt r.Cores],
   .printf "--modelName:\t%s\n" [.vStr r.ModelName],
   .printf "--MHz:\t\t%g\n" [.vRat r.Mhz],
   .printf "--facheSize:\t%d\n" [.vInt r.CacheSize],
   .printf "--flags:\t%v\n" [.vStrs r.Flags],
   .printf "--Microcode:\t%s\n" [.vStr r.Microcode]]

/-- `PrintCPUInfo`: the `for i := 0; i < len(cpu_info); i++` loop
renders record `i` with `cpuLines`, so the output is the concatenation
of the per-record blocks in slice order.  Propagates the panic of
`GetCPUInfo`. -/
def PrintCPUInfo (q : Except OSError (List InfoStat)) : Option (List Line) :=
  (GetCPUInfo q).map fun cpu_info => cpu_info.flatMap cpuLines

/-- `PrintNetworkInterface`: prints `ifaces[0]` on the labelled first
line, then the remaining interfaces indented.  The source evaluates
`ifaces[0]` without a length check: on an empty slice this is an
index-out-of-range runtime panic, modelled as `none`. -/
def PrintNetworkInterface (q : Except OSError (List Interface)) : Option (List Line) :=
  (GetNetworkInterface q).bind fun ifaces =>
    match ifaces with
    | [] => none
    | first :: rest =>
        some (.printf "interfaces:\t%v\n" [.vIface first] ::
              rest.map fun i => .printf "\t\t%v\n" [.vIface i])

/-- The four boolean flags registered in `main` (`hostname`, `os`,
`cpu`, `network`), under their local variable names. -/
structure FlagState where
  hn : Bool
  OS : Bool
  cpu : Bool
  netw : Bool
deriving DecidableEq, Repr

/-- One reporter invocation `main` can dispatch. -/
inductive Reporter where
  | hostnameR
  | networkR
  | osNameR
  | sysStatsR
  | cpuR
deriving DecidableEq, Repr

/-- The ambient inputs of one program run: the result each OS query
would return, and the two platform constants. -/
structure Env where
  hostnameQ : Except OSError String
  sysinfoQ : Except OSError Sysinfo_t
  cpuQ : Except OSError (List InfoStat)
  netQ : Except OSError (List Interface)
  goos : String
  goarch : String

/-- Maps a dispatched reporter to the print routine `main` calls. -/
def runReporter (env : Env) : Reporter → Option (List Line)
  | .hostnameR => PrintHostName env.hostnameQ
  | .networkR => PrintNetworkInterface env.netQ
  | .osNameR => some (PrintOSName env.goos env.goarch)
  | .sysStatsR => PrintSysInfo env.sysinfoQ
  | .cpuR => PrintCPUInfo env.cpuQ

/-- The dispatch structure of `main`: `len(os.Args) == 1` runs the five
fixed reporters and returns; otherwise each flag's branch runs in
source order (`hn`, then `OS` which calls `PrintSysInfo` and
`PrintCPUInfo`, then `cpu`, then `netw`). -/
def dispatch (argc : Nat) (flags : FlagState) : List Reporter :=
  if argc = 1 then
    [.hostnameR, .networkR, .osNameR, .sysStatsR, .cpuR]
  else
    (if flags.hn then [.hostnameR] else []) ++
    (if flags.OS then [.sysStatsR, .cpuR] else []) ++
    (if flags.cpu then [.cpuR] else []) ++
    (if flags.netw then [.networkR] else [])

/-- Runs print routines in order.  A panic (`none`) aborts the process:
the lines already printed stay on stdout, later routines never run, and
the Boolean records that the run panicked.  (Every panic in the source
happens before the panicking routine's first print, so a panicking
routine contributes no lines.) -/
def runPrinters : List (Option (List Line)) → List Line × Bool
  | [] => ([], false)
  | none :: _ => ([], true)
  | some out :: rest =>
      let r := runPrinters rest
      (out ++ r.1, r.2)

/-- `main`: after `flag.Parse()`, prints `len(os.Args)` via
`fmt.Println`, then runs the dispatched reporters in order.  Returns
the full stdout trace and whether the process panicked. -/
def main (argc : Nat) (flags : FlagState) (env : Env) : List Line × Bool :=
  let r := runPrinters ((dispatch argc flags).map (runReporter env))
  (Line.println (.vNat argc) :: r.1, r.2)

/-- Recognizes the header line a CPU record block starts with. -/
def isCpuIDLine : Line → Bool
  | .printf f _ => f == "cpuID:\t%d\n"
  | .println _ => false

/-- A concrete environment for the hostname-only invocation. -/
def envH : Env where
  hostnameQ := .ok "myhost"
  sysinfoQ := .error ⟨"unused"⟩
  cpuQ := .error ⟨"unused"⟩
  netQ := .error ⟨"unused"⟩
  goos := "linux"
  goarch := "amd64"

/-- A concrete environment whose network query succeeds with zero
interfaces. -/
def envNoIfaces : Env where
  hostnameQ := .ok "myhost"
  sysinfoQ := .error ⟨"unused"⟩
  cpuQ := .error ⟨"unused"⟩
  netQ := .ok []
  goos := "linux"
  goarch := "amd64"

/-- Each record's block in the CPU report contains exactly one
`cpuID:` header line. -/
theorem countP_cpuLines (r : InfoStat) : (cpuLines r).countP isCpuIDLine = 1 := by
  simp [cpuLines, isCpuIDLine, List.countP_cons, List.countP_nil]

/-- C1: a `--network` invocation on a host whose interface enumeration
succeeds with zero interfaces crashes: `GetNetworkInterface` returns the
empty list, but the print routine's unchecked `ifaces[0]` access panics,
so `main` run with only the network flag set panics instead of reporting
an empty list. -/
theorem networkPrint_panics_on_empty :
    GetNetworkInterface (.ok []) = some [] ∧
    PrintNetworkInterface (.ok ([] : List Interface)) = none ∧
    (main 2 ⟨false, false, false, true⟩ envNoIfaces).2 = true :=
  ⟨rfl, rfl, rfl⟩

/-- C2: with zero command-line arguments (`len(os.Args) == 1`), `main`
dispatches exactly the five reporters hostname, network interfaces,
OS name, system stats and CPU, in that fixed order, and its stdout
trace is the argument-count line followed by those five reporters'
output run in that order, after which it returns. -/
theorem dispatch_noflags (flags : FlagState) (env : Env) :
    dispatch 1 flags = [.hostnameR, .networkR, .osNameR, .sysStatsR, .cpuR] ∧
    main 1 flags env =
      (Line.println (.vNat 1) ::
        (runPrinters [PrintHostName env.hostnameQ, PrintNetworkInterface env.netQ,
          some (PrintOSName env.goos env.goarch), PrintSysInfo env.sysinfoQ,
          PrintCPUInfo env.cpuQ]).1,
       (runPrinters [PrintHostName env.hostnameQ, PrintNetworkInterface env.netQ,
          some (PrintOSName env.goos env.goarch), PrintSysInfo env.sysinfoQ,
          PrintCPUInfo env.cpuQ]).2) :=
  ⟨rfl, rfl⟩

/-- C3: on a successful kernel query, `GetSysInfo` divides each of the
three raw load-average values by 65536 after conversion out of the
integer domain, and divides every byte-denominated memory field
(total/free/shared/buffer RAM, total/free swap, total/free high memory)
by 1048576 with truncating integer division. -/
theorem getSysInfo_conversions (sys_ref : Sysinfo_t) :
    GetSysInfo (.ok sys_ref) = some (sys_of_sysinfo sys_ref) ∧
    (∀ i : Fin 3, (sys_of_sysinfo sys_ref).Loads i = (sys_ref.Loads i : ℚ) / 65536) ∧
    (sys_of_sysinfo sys_ref).TotalRam = sys_ref.Totalram / 1048576 ∧
    (sys_of_sysinfo sys_ref).FreeRam = sys_ref.Freeram / 1048576 ∧
    (sys_of_sysinfo sys_ref).SharedRam = sys_ref.Sharedram / 1048576 ∧
    (sys_of_sysinfo sys_ref).BufferRam = sys_ref.Bufferram / 1048576 ∧
    (sys_of_sysinfo sys_ref).TotalSwap = sys_ref.Totalswap / 1048576 ∧
    (sys_of_sysinfo sys_ref).FreeSwap = sys_ref.Freeswap / 1048576 ∧
    (sys_of_sysinfo sys_ref).TotalHigh = sys_ref.Totalhigh / 1048576 ∧
    (sys_of_sysinfo sys_ref).FreeHigh = sys_ref.Freehigh / 1048576 := by
  refine ⟨rfl, ?_, rfl, rfl, rfl, rfl, rfl, rfl, rfl, rfl⟩
  intro i
  have h1 : SYSINFO_LOADS_SCALE = 65536 := rfl
  simp [sys_of_sysinfo, h1]

/-- C4: each of the four query functions returns the panic marker
(`none`) exactly when its OS query errors, and on success returns the
query's result (for `GetSysInfo`, the converted record) — no retry, no
fallback value, no partial result. -/
theorem query_fatal_iff_error (e : OSError) (hostN : String) (sys_ref : Sysinfo_t)
    (cpu_info : List InfoStat) (ifaces : List Interface) :
    GetHostName (.error e) = none ∧ GetHostName (.ok hostN) = some hostN ∧
    GetSysInfo (.error e) = none ∧ GetSysInfo (.ok sys_ref) = some (sys_of_sysinfo sys_ref) ∧
    GetCPUInfo (.error e) = none ∧ GetCPUInfo (.ok cpu_info) = some cpu_info ∧
    GetNetworkInterface (.error e) = none ∧ GetNetworkInterface (.ok ifaces) = some ifaces :=
  ⟨rfl, rfl, rfl, rfl, rfl, rfl, rfl, rfl⟩

/-- C5 counterexample: invoking with only `--hostname` set (argc = 2,
hostname query returns "myhost") prints the argument-count line before
the hostname line, so the entire stdout is not exactly the hostname
line. -/
theorem hostnameOnly_output_cex :
    (main 2 ⟨true, false, false, false⟩ envH).1 =
      [Line.println (.vNat 2), Line.printf "hostname:\t%v\n" [.vStr "myhost"]] ∧
    (main 2 ⟨true, false, false, false⟩ envH).1 ≠
      [Line.printf "hostname:\t%v\n" [.vStr "myhost"]] :=
  ⟨rfl, by decide⟩

/-- C5 amended: with only the `--hostname` flag set, the stdout trace
is the unconditional argument-count line followed by exactly the
hostname line — no other report section and nothing else. -/
theorem hostnameOnly_output (argc : Nat) (h : argc ≠ 1) (hostN : String) (env : Env)
    (hq : env.hostnameQ = .ok hostN) :
    main argc ⟨true, false, false, false⟩ env =
      ([Line.println (.vNat argc), Line.printf "hostname:\t%v\n" [.vStr hostN]], false) := by
  simp [main, dispatch, if_neg h, runPrinters, runReporter, PrintHostName, GetHostName, hq]

/-- C5 witness at argc = 2 with hostname "myhost". -/
theorem hostnameOnly_output_witness :
    main 2 ⟨true, false, false, false⟩ envH =
      ([Line.println (.vNat 2), Line.printf "hostname:\t%v\n" [.vStr "myhost"]], false) :=
  hostnameOnly_output 2 (by decide) "myhost" envH rfl

/-- C6: in flag mode, whenever the `--os` flag is set the dispatcher
runs both the system-stats reporter and the CPU reporter, and never the
OS-name reporter. -/
theorem osFlag_sections (argc : Nat) (flags : FlagState) (h : argc ≠ 1)
    (hos : flags.OS = true) :
    Reporter.sysStatsR ∈ dispatch argc flags ∧ Reporter.cpuR ∈ dispatch argc flags ∧
    Reporter.osNameR ∉ dispatch argc flags := by
  obtain ⟨hn, os, cpu, netw⟩ := flags
  simp only at hos
  subst hos
  cases hn <;> cases cpu <;> cases netw <;> simp [dispatch, if_neg h]

/-- C6 witness at argc = 2 with only `--os` set. -/
theorem osFlag_sections_witness :
    Reporter.sysStatsR ∈ dispatch 2 ⟨false, true, false, false⟩ ∧
    Reporter.cpuR ∈ dispatch 2 ⟨false, true, false, false⟩ ∧
    Reporter.osNameR ∉ dispatch 2 ⟨false, true, false, false⟩ :=
  osFlag_sections 2 ⟨false, true, false, false⟩ (by decide) rfl

/-- C7: `GetCPUInfo` returns the kernel's per-CPU descriptor slice
unmodified (same elements, same order), and the CPU printing routine
renders the records' blocks concatenated in that order — 13 lines per
record, and exactly one `cpuID:` header line per record, so every
record is rendered exactly once with no aggregation or deduplication. -/
theorem cpu_report_complete (cpu_info : List InfoStat) :
    GetCPUInfo (.ok cpu_info) = some cpu_info ∧
    PrintCPUInfo (.ok cpu_info) = some (cpu_info.flatMap cpuLines) ∧
    (cpu_info.flatMap cpuLines).length = 13 * cpu_info.length ∧
    (cpu_info.flatMap cpuLines).countP isCpuIDLine = cpu_info.length := by
  refine ⟨rfl, rfl, ?_, ?_⟩
  · induction cpu_info with
    | nil => simp
    | cons r rest ih =>
        simp [cpuLines, ih]
        omega
  · induction cpu_info with
    | nil => simp
    | cons r rest ih =>
        simp [List.countP_append, countP_cpuLines r, ih]
        omega

/-- C8: every memory field of the converted system-info record
(total/free/shared/buffer RAM, total/free swap, total/free high memory)
and the process count are non-negative, and all three converted load
averages are non-negative. -/
theorem sysinfo_fields_nonneg (sys_ref : Sysinfo_t) :
    (∀ i : Fin 3, 0 ≤ (sys_of_sysinfo sys_ref).Loads i) ∧
    (0 : ℤ) ≤ ((sys_of_sysinfo sys_ref).TotalRam : ℤ) ∧
    (0 : ℤ) ≤ ((sys_of_sysinfo sys_ref).FreeRam : ℤ) ∧
    (0 : ℤ) ≤ ((sys_of_sysinfo sys_ref).SharedRam : ℤ) ∧
    (0 : ℤ) ≤ ((sys_of_sysinfo sys_ref).BufferRam : ℤ) ∧
    (0 : ℤ) ≤ ((sys_of_sysinfo sys_ref).TotalSwap : ℤ) ∧
    (0 : ℤ) ≤ ((sys_of_sysinfo sys_ref).FreeSwap : ℤ) ∧
    (0 : ℤ) ≤ ((sys_of_sysinfo sys_ref).TotalHigh : ℤ) ∧
    (0 : ℤ) ≤ ((sys_of_sysinfo sys_ref).FreeHigh : ℤ) ∧
    (0 : ℤ) ≤ ((sys_of_sysinfo sys_ref).Procs : ℤ) := by
  refine ⟨fun i => div_nonneg (Nat.cast_nonneg _) (Nat.cast_nonneg _),
    ?_, ?_, ?_, ?_, ?_, ?_, ?_, ?_, ?_⟩ <;> exact Int.natCast_nonneg _

/-- C9: on every successful system-info query, the line labelled
`sys freeRam` carries the `TotalRam` field of the converted record —
the same value as the `sys totalRam` line, namely `Totalram` divided by
the megabyte unit — regardless of the raw `Freeram` reading. -/
theorem freeRam_line_shows_totalRam (sys_ref : Sysinfo_t) :
    ∃ out, PrintSysInfo (.ok sys_ref) = some out ∧
      out[3]? = some (Line.printf "sys freeRam:\t%d MB\n"
        [.vNat (sys_of_sysinfo sys_ref).TotalRam]) ∧
      out[2]? = some (Line.printf "sys totalRam:\t%d MB\n"
        [.vNat (sys_of_sysinfo sys_ref).TotalRam]) ∧
      (sys_of_sysinfo sys_ref).TotalRam = sys_ref.Totalram / SYSINFO_MEM_UNIT :=
  ⟨_, rfl, rfl, rfl, rfl⟩

/-- C10 counterexample: with `--os` and `--cpu` both set (argc = 3),
the dispatched sequence is system-stats, CPU, CPU: the two CPU copies
are adjacent, and no position strictly between two CPU entries holds
the system-stats reporter. -/
theorem os_cpu_between_cex :
    dispatch 3 ⟨false, true, true, false⟩ = [.sysStatsR, .cpuR, .cpuR] ∧
    ¬ ∃ i j k : Fin (dispatch 3 ⟨false, true, true, false⟩).length,
        i < k ∧ k < j ∧
        (dispatch 3 ⟨false, true, true, false⟩).get i = .cpuR ∧
        (dispatch 3 ⟨false, true, true, false⟩).get j = .cpuR ∧
        (dispatch 3 ⟨false, true, true, false⟩).get k = .sysStatsR := by
  exact ⟨by decide, by decide⟩

/-- C10 amended: with `--os` and `--cpu` both set, the CPU reporter is
dispatched exactly twice, the two copies consecutive, with the
system-stats reporter immediately before the first copy. -/
theorem os_cpu_twice (argc : Nat) (flags : FlagState) (h : argc ≠ 1)
    (hos : flags.OS = true) (hcpu : flags.cpu = true) :
    (dispatch argc flags).count .cpuR = 2 ∧
    ∃ pre post, dispatch argc flags = pre ++ [.sysStatsR, .cpuR, .cpuR] ++ post := by
  obtain ⟨hn, os, cpu, netw⟩ := flags
  simp only at hos hcpu
  subst hos; subst hcpu
  have e : dispatch argc ⟨hn, true, true, netw⟩ =
      (if hn then [Reporter.hostnameR] else []) ++ [.sysStatsR, .cpuR, .cpuR] ++
      (if netw then [Reporter.networkR] else []) := by
    cases hn <;> cases netw <;> simp [dispatch, if_neg h]
  rw [e]
  refine ⟨?_, (if hn then [Reporter.hostnameR] else []),
    (if netw then [Reporter.networkR] else []), rfl⟩
  cases hn <;> cases netw <;> decide

/-- C10 witness at argc = 3 with `--os` and `--cpu` set. -/
theorem os_cpu_twice_witness :
    (dispatch 3 ⟨false, true, true, false⟩).count .cpuR = 2 ∧
    ∃ pre post, dispatch 3 ⟨false, true, true, false⟩ =
      pre ++ [.sysStatsR, .cpuR, .cpuR] ++ post :=
  os_cpu_twice 3 ⟨false, true, true, false⟩ (by decide) rfl rfl

end MachineInfo
